import Mathlib

/-!
Verification of the carbon-platform emission quantification engine
(`backend/app/services/calc_service.py`).

Numbers are modelled as rationals (`ℚ`): the specification's numeric claims
are algebraic (exact multiplication, exact accumulation, exact division by
1000), so the embedding uses exact arithmetic. Python dictionaries of named
numeric inputs are modelled as association lists with unique keys and
first-match lookup; fallible code is modelled with `Except CalcError`.

Two collaborators imported by `calc_service.py` — `app.services.gwp` and
`app.services.formula_engine` — are not part of the available sources, so
they are modelled from the specification (sections 4.1 and 4.2); each such
definition carries a doc comment starting with `Modelled from the spec:`.
-/

attribute [local semireducible] Rat.mul Rat.add Rat.sub Rat.inv

namespace CarbonPlatform

/-- Named numeric inputs of an activity: a Python dict modelled as an
association list with first-match lookup. -/
abbrev Inputs := List (String × ℚ)

/-- Dictionary lookup on an input mapping. -/
def lookupInput (inputs : Inputs) (k : String) : Option ℚ :=
  (inputs.find? (fun p => p.1 == k)).map (fun p => p.2)

/-- Python `k in inputs` membership test. -/
def hasKey (inputs : Inputs) (k : String) : Bool :=
  (lookupInput inputs k).isSome

/-- Python `str.strip()`: remove leading and trailing whitespace. -/
def pyStrip (s : String) : String :=
  String.mk (((s.data.dropWhile Char.isWhitespace).reverse.dropWhile Char.isWhitespace).reverse)

/-- Python `str.upper()`: upper-case every character. -/
def pyUpper (s : String) : String :=
  String.mk (s.data.map Char.toUpper)

/-- The `formula` sub-structure of an `activity_id_fields` specification.
A present-but-empty formula dictionary is falsy in Python and therefore
behaves exactly like an absent one; it is modelled as `none`. -/
structure Formula where
  expression : String
  output : Option String
  unit : Option String
deriving DecidableEq, Repr

/-- The `activity_id_fields` specification embedded in an emission factor. -/
structure ActivityIdFieldsSpec where
  required : List String
  formula : Option Formula
  quantity_field : Option String
deriving DecidableEq, Repr

/-- The `gas_breakdown` structure of an emission factor: a `gases` mapping of
gas symbol to per-unit quantity (an absent or empty `gases` entry is the
empty list). -/
structure GasBreakdown where
  gases : List (String × ℚ)
deriving DecidableEq, Repr

/-- An emission factor record (read-only input to the engine). -/
structure EmissionFactor where
  key : String
  value : Option ℚ
  gas_breakdown : Option GasBreakdown
  gwp_version : String
  activity_id_fields : Option ActivityIdFieldsSpec
  meta : Option String
deriving DecidableEq, Repr

/-- An activity record (read-only input to the engine); `a.inputs or {}` in
the source normalises a missing mapping, so `inputs` is a plain list here. -/
structure Activity where
  id : Int
  name : String
  ef_key : String
  inputs : Inputs
deriving DecidableEq, Repr

/-- Error taxonomy of the engine (spec section 7). The source raises
`ValueError` with distinguishing messages; the spec names the kinds. -/
inductive CalcError where
  | missingInput (field : String) (efKey : String)
  | noQuantityDerivation
  | evaluation (msg : String)
  | unknownGwpVersion (version : String)
  | efNotFound (key : String)
  | activityNotFound (id : Int)
deriving DecidableEq, Repr

/-- Equality of fallible results is decidable, so that concrete runs of the
engine can be checked by evaluation. -/
instance {ε α : Type} [DecidableEq ε] [DecidableEq α] : DecidableEq (Except ε α) := fun x y =>
  match x, y with
  | .error e, .error f =>
    if h : e = f then .isTrue (congrArg Except.error h)
    else .isFalse (fun hh => h (Except.error.inj hh))
  | .error _, .ok _ => .isFalse (fun hh => Except.noConfusion hh)
  | .ok _, .error _ => .isFalse (fun hh => Except.noConfusion hh)
  | .ok a, .ok b =>
    if h : a = b then .isTrue (congrArg Except.ok h)
    else .isFalse (fun hh => h (Except.ok.inj hh))

/-- Quantity-derivation trace dictionary: `method` is always present, the
remaining keys appear per method and are `Option`-valued. -/
structure QuantityTrace where
  method : String
  expression : Option String
  output : Option String
  field : Option String
  quantity : ℚ
  unit : Option String
deriving DecidableEq, Repr

/-- Per-activity calculation trace dictionary. -/
structure CalcTrace where
  method : String
  qty : ℚ
  ef_value : Option ℚ
  per_unit_co2e : Option ℚ
  qtrace : QuantityTrace
  ef_key : String
  meta : Option String
deriving DecidableEq, Repr

/-- One entry of `details.rows` in a run result. -/
structure Row where
  activity_id : Int
  activity_name : String
  ef_key : String
  inputs : Inputs
  kgco2e : ℚ
  trace : CalcTrace
deriving DecidableEq, Repr

/-- The run-level result dictionary; `rows` models `details.rows`. -/
structure RunResult where
  run_type : String
  total_kgco2e : ℚ
  total_tco2e : ℚ
  rows : List Row
deriving DecidableEq, Repr

/-- The persistence collaborator, reduced to the two read-only lookups the
engine requires: fetch one emission factor by key, one activity by id. -/
structure Db where
  efs : List EmissionFactor
  activities : List Activity
deriving Repr

/-- Fetch one emission factor by `key` (`one_or_none` on a unique key). -/
def findEF (db : Db) (key : String) : Option EmissionFactor :=
  db.efs.find? (fun ef => ef.key == key)

/-- Fetch one activity by `id` (`one_or_none` on the primary key). -/
def findActivity (db : Db) (aid : Int) : Option Activity :=
  db.activities.find? (fun a => a.id == aid)

/-! ### Formula engine, modelled from the spec (section 4.1) -/

/-- Tokens of the arithmetic formula language. -/
inductive Token where
  | num (q : ℚ)
  | ident (s : String)
  | plus
  | minus
  | star
  | slash
  | lparen
  | rparen
deriving DecidableEq, Repr

/-- Decimal digits to a natural number. -/
def digitsToNat (ds : List Char) : Nat :=
  ds.foldl (fun n c => 10 * n + (c.toNat - 48)) 0

/-- Modelled from the spec: lexer of `app/services/formula_engine.py`
(absent from the sources). Splits an arithmetic expression into numbers
(integer and decimal literals), identifiers, the four operators and
parentheses; any other character is a syntax error. The fuel argument is an
upper bound on the remaining characters, so a fresh call with
`fuel = input length` never exhausts it. -/
def tokenizeAux : Nat → List Char → Except CalcError (List Token)
  | 0, [] => .ok []
  | 0, _ :: _ => .error (.evaluation "lexer out of fuel")
  | _ + 1, [] => .ok []
  | fuel + 1, c :: cs =>
    if c = ' ' then tokenizeAux fuel cs
    else if c = '+' then (tokenizeAux fuel cs).map (fun ts => Token.plus :: ts)
    else if c = '-' then (tokenizeAux fuel cs).map (fun ts => Token.minus :: ts)
    else if c = '*' then (tokenizeAux fuel cs).map (fun ts => Token.star :: ts)
    else if c = '/' then (tokenizeAux fuel cs).map (fun ts => Token.slash :: ts)
    else if c = '(' then (tokenizeAux fuel cs).map (fun ts => Token.lparen :: ts)
    else if c = ')' then (tokenizeAux fuel cs).map (fun ts => Token.rparen :: ts)
    else if c.isDigit then
      let ds := (c :: cs).takeWhile Char.isDigit
      let rest := (c :: cs).dropWhile Char.isDigit
      match rest with
      | '.' :: r2 =>
        let fs := r2.takeWhile Char.isDigit
        if fs.isEmpty then .error (.evaluation "malformed numeric literal")
        else
          let q : ℚ := (digitsToNat ds : ℚ) + (digitsToNat fs : ℚ) / ((10 : ℚ) ^ fs.length)
          (tokenizeAux fuel (r2.dropWhile Char.isDigit)).map (fun ts => Token.num q :: ts)
      | _ => (tokenizeAux fuel rest).map (fun ts => Token.num (digitsToNat ds : ℚ) :: ts)
    else if c.isAlpha || c = '_' then
      let is := (c :: cs).takeWhile (fun ch => ch.isAlphanum || ch = '_')
      let rest := (c :: cs).dropWhile (fun ch => ch.isAlphanum || ch = '_')
      (tokenizeAux fuel rest).map (fun ts => Token.ident (String.mk is) :: ts)
    else .error (.evaluation "unexpected character in expression")

mutual

/-- Modelled from the spec: expression level of the recursive-descent
evaluator (addition and subtraction, left-associative). -/
def parseExpr : Nat → Inputs → List Token → Except CalcError (ℚ × List Token)
  | 0, _, _ => .error (.evaluation "parser out of fuel")
  | fuel + 1, env, toks =>
    match parseTerm fuel env toks with
    | .error e => .error e
    | .ok (a, rest) => parseExprTail fuel env a rest

/-- Modelled from the spec: left-associative tail of additive chains. -/
def parseExprTail : Nat → Inputs → ℚ → List Token → Except CalcError (ℚ × List Token)
  | 0, _, _, _ => .error (.evaluation "parser out of fuel")
  | fuel + 1, env, acc, toks =>
    match toks with
    | Token.plus :: rest =>
      match parseTerm fuel env rest with
      | .error e => .error e
      | .ok (b, rest2) => parseExprTail fuel env (acc + b) rest2
    | Token.minus :: rest =>
      match parseTerm fuel env rest with
      | .error e => .error e
      | .ok (b, rest2) => parseExprTail fuel env (acc - b) rest2
    | _ => .ok (acc, toks)

/-- Modelled from the spec: term level of the evaluator (multiplication and
division, left-associative, binding tighter than addition). -/
def parseTerm : Nat → Inputs → List Token → Except CalcError (ℚ × List Token)
  | 0, _, _ => .error (.evaluation "parser out of fuel")
  | fuel + 1, env, toks =>
    match parseFactor fuel env toks with
    | .error e => .error e
    | .ok (a, rest) => parseTermTail fuel env a rest

/-- Modelled from the spec: left-associative tail of multiplicative chains;
division by zero is an evaluation error. -/
def parseTermTail : Nat → Inputs → ℚ → List Token → Except CalcError (ℚ × List Token)
  | 0, _, _, _ => .error (.evaluation "parser out of fuel")
  | fuel + 1, env, acc, toks =>
    match toks with
    | Token.star :: rest =>
      match parseFactor fuel env rest with
      | .error e => .error e
      | .ok (b, rest2) => parseTermTail fuel env (acc * b) rest2
    | Token.slash :: rest =>
      match parseFactor fuel env rest with
      | .error e => .error e
      | .ok (b, rest2) =>
        if b = 0 then .error (.evaluation "division by zero")
        else parseTermTail fuel env (acc / b) rest2
    | _ => .ok (acc, toks)

/-- Modelled from the spec: atoms of the evaluator — numeric literals,
variable references (failing on an unresolved name) and parenthesised
sub-expressions. -/
def parseFactor : Nat → Inputs → List Token → Except CalcError (ℚ × List Token)
  | 0, _, _ => .error (.evaluation "parser out of fuel")
  | fuel + 1, env, toks =>
    match toks with
    | Token.num q :: rest => .ok (q, rest)
    | Token.ident s :: rest =>
      match lookupInput env s with
      | some v => .ok (v, rest)
      | none => .error (.evaluation ("unresolved variable " ++ s))
    | Token.lparen :: rest =>
      match parseExpr fuel env rest with
      | .error e => .error e
      | .ok (q, rest2) =>
        match rest2 with
        | Token.rparen :: rest3 => .ok (q, rest3)
        | _ => .error (.evaluation "expected closing parenthesis")
    | _ => .error (.evaluation "syntax error")

end

/-- Modelled from the spec: `eval_expression` of
`app/services/formula_engine.py` (absent from the sources). A pure,
deterministic evaluator of the restricted arithmetic grammar — addition,
subtraction, multiplication, division, parentheses, integer and decimal
literals, variable references — failing with an evaluation error on an
unresolved variable, a syntax error, or division by zero. -/
def eval_expression (expr : String) (env : Inputs) : Except CalcError ℚ :=
  match tokenizeAux (expr.data.length + 1) expr.data with
  | .error e => .error e
  | .ok toks =>
    match parseExpr (4 * toks.length + 4) env toks with
    | .error e => .error e
    | .ok (q, rest) =>
      if rest.isEmpty then .ok q
      else .error (.evaluation "unexpected trailing tokens")

/-! ### GWP resolver, modelled from the spec (section 4.2) -/

/-- Assessment-report-4 table of gas symbol to CO2-equivalence multiplier. -/
def gwpAR4 : List (String × ℚ) := [("CO2", 1), ("CH4", 25), ("N2O", 298)]

/-- Assessment-report-5 table of gas symbol to CO2-equivalence multiplier. -/
def gwpAR5 : List (String × ℚ) := [("CO2", 1), ("CH4", 28), ("N2O", 265)]

/-- Lookup in a GWP table (upper-cased gas symbols). -/
def gwpLookup (table : List (String × ℚ)) (g : String) : Option ℚ :=
  (table.find? (fun p => p.1 == g)).map (fun p => p.2)

/-- Modelled from the spec: `resolve_gwp` of `app/services/gwp.py` (absent
from the sources). Returns the fixed, versioned mapping from upper-cased gas
symbol to CO2-equivalence multiplier, and fails with an unknown-version
error when the identifier is not recognized — the spec forbids a silent
default. -/
def resolve_gwp (version : String) : Except CalcError (List (String × ℚ)) :=
  if version = "AR4" then .ok gwpAR4
  else if version = "AR5" then .ok gwpAR5
  else .error (.unknownGwpVersion version)

/-! ### The calculation service (`app/services/calc_service.py`) -/

/-- Python `x or default` on an optional string: `None` and the empty string
are falsy. Used for the `output` fallback chain of the formula trace. -/
def pyOrStr (o : Option String) (d : String) : String :=
  match o with
  | some s => if s == "" then d else s
  | none => d

/-- The `gases` mapping a gas-breakdown conversion iterates over:
`(ef.gas_breakdown or {}).get("gases") or {}` in the source. -/
def gasesOf (ef : EmissionFactor) : List (String × ℚ) :=
  match ef.gas_breakdown with
  | none => []
  | some gb => gb.gases

/-- Embedding of `_per_unit_co2e_from_gas_breakdown`: resolves the GWP table
for `ef.gwp_version` (unconditionally, even when there are no gases), then
accumulates `val * gwp[g]` over the gases whose stripped, upper-cased symbol
is a key of the table; gases absent from the table are skipped. -/
def _per_unit_co2e_from_gas_breakdown (ef : EmissionFactor) : Except CalcError ℚ :=
  match resolve_gwp ef.gwp_version with
  | .error e => .error e
  | .ok gwp =>
    .ok (List.foldl
      (fun per_unit p =>
        match gwpLookup gwp (pyUpper (pyStrip p.1)) with
        | some f => per_unit + p.2 * f
        | none => per_unit)
      0 (gasesOf ef))

/-- The `activity_id_fields` specification after the source's
`ef.activity_id_fields or {}` normalisation. -/
def specOf (ef : EmissionFactor) : ActivityIdFieldsSpec :=
  ef.activity_id_fields.getD ⟨[], none, none⟩

/-- Strategies 3 to 5 of `compute_activity_quantity`: first-required, then
fallback amount, then failure; reached when neither the formula branch nor
the quantity-field branch applied. -/
def quantityFallback (inputs : Inputs) (required : List String) :
    Except CalcError (ℚ × QuantityTrace) :=
  match required with
  | r :: _ =>
    let q := (lookupInput inputs r).getD 0
    .ok (q, ⟨"first_required", none, none, some r, q, none⟩)
  | [] =>
    if hasKey inputs "amount" then
      let q := (lookupInput inputs "amount").getD 0
      .ok (q, ⟨"fallback_amount", none, none, some "amount", q, none⟩)
    else .error .noQuantityDerivation

/-- Embedding of `compute_activity_quantity`: first the required-fields
check (failing on the first name of `spec.required` missing from `inputs`),
then the formula strategy, then the quantity-field strategy (skipped for a
falsy — empty — field name, per Python truthiness), then the fallbacks. In
the branches that read a required or checked field the `getD 0` default is
unreachable: the field was just tested present. -/
def compute_activity_quantity (ef : EmissionFactor) (inputs : Inputs) :
    Except CalcError (ℚ × QuantityTrace) :=
  let spec := specOf ef
  match spec.required.find? (fun r => !(hasKey inputs r)) with
  | some r => .error (.missingInput r ef.key)
  | none =>
    match spec.formula with
    | some f =>
      match eval_expression f.expression inputs with
      | .error e => .error e
      | .ok q =>
        .ok (q, ⟨"formula", some f.expression,
          some (pyOrStr f.output (pyOrStr spec.quantity_field "quantity")),
          none, q, f.unit⟩)
    | none =>
      match spec.quantity_field with
      | some qf =>
        if !(qf == "") && hasKey inputs qf then
          let q := (lookupInput inputs qf).getD 0
          .ok (q, ⟨"quantity_field", none, none, some qf, q, none⟩)
        else quantityFallback inputs spec.required
      | none => quantityFallback inputs spec.required

/-- Embedding of `compute_activity_kgco2e`: look up the emission factor by
the activity's `ef_key` (failing when absent), derive the quantity, then
either multiply by the direct `value` or by the gas-breakdown per-unit
CO2e. -/
def compute_activity_kgco2e (db : Db) (activity : Activity) :
    Except CalcError (ℚ × CalcTrace) :=
  match findEF db activity.ef_key with
  | none => .error (.efNotFound activity.ef_key)
  | some ef =>
    match compute_activity_quantity ef activity.inputs with
    | .error e => .error e
    | .ok (qty, qtrace) =>
      match ef.value with
      | some v =>
        .ok (qty * v, ⟨"direct_value", qty, some v, none, qtrace, ef.key, ef.meta⟩)
      | none =>
        match _per_unit_co2e_from_gas_breakdown ef with
        | .error e => .error e
        | .ok per_unit =>
          .ok (qty * per_unit,
            ⟨"gas_breakdown", qty, none, some per_unit, qtrace, ef.key, ef.meta⟩)

/-- The loop body of `compute_run`, carrying the `total` and `rows`
accumulators exactly as the Python loop does. -/
def runLoop (db : Db) : List Int → ℚ → List Row → Except CalcError (ℚ × List Row)
  | [], total, rows => .ok (total, rows)
  | aid :: rest, total, rows =>
    match findActivity db aid with
    | none => .error (.activityNotFound aid)
    | some a =>
      match compute_activity_kgco2e db a with
      | .error e => .error e
      | .ok (kg, trace) =>
        runLoop db rest (total + kg)
          (rows ++ [⟨a.id, a.name, a.ef_key, a.inputs, kg, trace⟩])

/-- Embedding of `compute_run`: iterate the activity ids in order, failing
on the first id with no matching activity, accumulate the total, and emit
the run dictionary with `total_tco2e = total_kgco2e / 1000`. -/
def compute_run (db : Db) (activity_ids : List Int) (run_type : String) :
    Except CalcError RunResult :=
  match runLoop db activity_ids 0 [] with
  | .error e => .error e
  | .ok (total, rows) => .ok ⟨run_type, total, total / 1000, rows⟩

/-! ### Helper lemmas -/

/-- A successful activity lookup returns the activity with the requested id. -/
lemma findActivity_id {db : Db} {aid : Int} {a : Activity}
    (h : findActivity db aid = some a) : a.id = aid := by
  have hp := List.find?_some h
  exact eq_of_beq hp

/-- Shifting the accumulators of `runLoop`: a run from arbitrary accumulators
is the run from empty accumulators with the total added and the rows
prepended. -/
lemma runLoop_shift (db : Db) (ids : List Int) :
    ∀ (total : ℚ) (rows : List Row),
      runLoop db ids total rows =
        (runLoop db ids 0 []).map (fun p => (total + p.1, rows ++ p.2)) := by
  induction ids with
  | nil => intro total rows; simp [runLoop, Except.map]
  | cons aid rest ih =>
    intro total rows
    simp only [runLoop]
    cases hfa : findActivity db aid with
    | none => simp [Except.map]
    | some a =>
      dsimp only
      cases hc : compute_activity_kgco2e db a with
      | error e => simp [Except.map]
      | ok kgtr =>
        obtain ⟨kg, tr⟩ := kgtr
        dsimp only
        rw [ih]
        conv_rhs => rw [ih]
        cases hrl : runLoop db rest 0 [] with
        | error e => simp [Except.map]
        | ok p => simp [Except.map, add_assoc, List.append_assoc]

/-- Folding addition from an arbitrary initial value. -/
lemma foldl_add_shift (l : List ℚ) :
    ∀ init : ℚ, l.foldl (· + ·) init = init + l.foldl (· + ·) 0 := by
  induction l with
  | nil => intro init; simp
  | cons x xs ih =>
    intro init
    simp only [List.foldl_cons]
    rw [ih (init + x), ih (0 + x)]
    ring

/-- Per-unit CO2e as the specification words it: the sum over the gases of
the breakdown of `quantity * factor` for the gases whose normalised symbol
is a key of the GWP table, 0 for the others. Instantiated with `pyUpper`
this is the claim's "matching gas symbols case-insensitively"; instantiated
with `pyUpper ∘ pyStrip` it is the source's normalisation. -/
def perUnitSum (normalize : String → String) (gases gwp : List (String × ℚ)) : ℚ :=
  (gases.map (fun p =>
    match gwpLookup gwp (normalize p.1) with
    | some f => p.2 * f
    | none => 0)).sum

/-- The gas-breakdown fold of the source equals the specification-style sum,
for any accumulator. -/
lemma gas_fold_eq_sum (gwp : List (String × ℚ)) (gases : List (String × ℚ)) :
    ∀ acc : ℚ,
      List.foldl (fun per_unit p =>
        match gwpLookup gwp (pyUpper (pyStrip p.1)) with
        | some f => per_unit + p.2 * f
        | none => per_unit) acc gases
      = acc + perUnitSum (fun s => pyUpper (pyStrip s)) gases gwp := by
  induction gases with
  | nil => intro acc; simp [perUnitSum]
  | cons p ps ih =>
    intro acc
    simp only [List.foldl_cons, perUnitSum, List.map_cons, List.sum_cons]
    cases h : gwpLookup gwp (pyUpper (pyStrip p.1)) with
    | some f =>
      rw [ih]
      simp only [perUnitSum]
      ring
    | none =>
      rw [ih]
      simp only [perUnitSum]
      ring

/-- What it means for a row of `details.rows` to report a given activity id:
the row names that id, and its name, emission-factor key, raw inputs, kgCO2e
and trace are exactly those of the activity stored under that id. -/
def RowMatches (db : Db) (aid : Int) (row : Row) : Prop :=
  row.activity_id = aid ∧ ∃ a, findActivity db aid = some a ∧
    row.activity_name = a.name ∧ row.ef_key = a.ef_key ∧ row.inputs = a.inputs ∧
    compute_activity_kgco2e db a = .ok (row.kgco2e, row.trace)

/-- A successful `runLoop` from empty accumulators produces one matching row
per activity id, in order. -/
lemma runLoop_rows (db : Db) : ∀ (ids : List Int) (t : ℚ) (rows : List Row),
    runLoop db ids 0 [] = .ok (t, rows) → List.Forall₂ (RowMatches db) ids rows := by
  intro ids
  induction ids with
  | nil =>
    intro t rows h
    simp only [runLoop, Except.ok.injEq, Prod.mk.injEq] at h
    rw [← h.2]
    exact List.Forall₂.nil
  | cons aid rest ih =>
    intro t rows h
    simp only [runLoop] at h
    cases hfa : findActivity db aid with
    | none => rw [hfa] at h; exact absurd h (by simp)
    | some a =>
      rw [hfa] at h
      dsimp only at h
      cases hc : compute_activity_kgco2e db a with
      | error e => rw [hc] at h; exact absurd h (by simp)
      | ok kgtr =>
        obtain ⟨kg, tr⟩ := kgtr
        rw [hc] at h
        dsimp only at h
        rw [runLoop_shift] at h
        cases hrl : runLoop db rest 0 [] with
        | error e => rw [hrl] at h; exact absurd h (by simp [Except.map])
        | ok q =>
          rw [hrl] at h
          simp only [Except.map, List.nil_append, Except.ok.injEq, Prod.mk.injEq,
            List.singleton_append] at h
          rw [← h.2]
          refine List.Forall₂.cons ?_ (ih q.1 q.2 (by rw [hrl]))
          exact ⟨findActivity_id hfa, a, hfa, rfl, rfl, rfl, by rw [hc]⟩

/-- The total of a successful `runLoop` from empty accumulators is the
left-to-right sum of the kgCO2e values of its rows. -/
lemma runLoop_total (db : Db) : ∀ (ids : List Int) (t : ℚ) (rows : List Row),
    runLoop db ids 0 [] = .ok (t, rows) →
      t = (rows.map Row.kgco2e).foldl (· + ·) 0 := by
  intro ids
  induction ids with
  | nil =>
    intro t rows h
    simp only [runLoop, Except.ok.injEq, Prod.mk.injEq] at h
    obtain ⟨h1, h2⟩ := h
    subst h1
    subst h2
    simp
  | cons aid rest ih =>
    intro t rows h
    simp only [runLoop] at h
    cases hfa : findActivity db aid with
    | none => rw [hfa] at h; exact absurd h (by simp)
    | some a =>
      rw [hfa] at h
      dsimp only at h
      cases hc : compute_activity_kgco2e db a with
      | error e => rw [hc] at h; exact absurd h (by simp)
      | ok kgtr =>
        obtain ⟨kg, tr⟩ := kgtr
        rw [hc] at h
        dsimp only at h
        rw [runLoop_shift] at h
        cases hrl : runLoop db rest 0 [] with
        | error e => rw [hrl] at h; exact absurd h (by simp [Except.map])
        | ok q =>
          rw [hrl] at h
          simp only [Except.map, List.nil_append, Except.ok.injEq, Prod.mk.injEq,
            List.singleton_append] at h
          obtain ⟨h1, h2⟩ := h
          subst h1
          subst h2
          have hq := ih q.1 q.2 (by rw [hrl])
          simp only [List.map_cons, List.foldl_cons]
          rw [foldl_add_shift, ← hq]

/-- A successful `compute_run` comes from a successful `runLoop` and fills
the result record from its total and rows. -/
lemma compute_run_ok {db : Db} {ids : List Int} {rt : String} {res : RunResult}
    (h : compute_run db ids rt = .ok res) :
    ∃ t rows, runLoop db ids 0 [] = .ok (t, rows) ∧ res = ⟨rt, t, t / 1000, rows⟩ := by
  unfold compute_run at h
  cases hrl : runLoop db ids 0 [] with
  | error e => rw [hrl] at h; exact absurd h (by simp)
  | ok p =>
    obtain ⟨t, rows⟩ := p
    rw [hrl] at h
    dsimp only at h
    exact ⟨t, rows, rfl, (Except.ok.inj h).symm⟩

/-! ### Concrete fixtures for witnesses and counterexamples -/

/-- Direct-value emission factor of the specification's worked example:
`value = 2.68`, required field `litres`. -/
def dieselEF : EmissionFactor :=
  ⟨"diesel_litres", some (67/25), none, "AR5", some ⟨["litres"], none, none⟩, none⟩

/-- Activity consuming 100 litres of diesel. -/
def dieselAct : Activity := ⟨1, "fleet diesel", "diesel_litres", [("litres", 100)]⟩

/-- Store holding the diesel emission factor and activity. -/
def dieselDb : Db := ⟨[dieselEF], [dieselAct]⟩

/-- The quantity trace of the diesel activity. -/
def dieselQTrace : QuantityTrace := ⟨"first_required", none, none, some "litres", 100, none⟩

/-- The calculation trace of the diesel activity. -/
def dieselTrace : CalcTrace :=
  ⟨"direct_value", 100, some (67/25), none, dieselQTrace, "diesel_litres", none⟩

/-- The run result of running the diesel activity alone. -/
def dieselRes : RunResult :=
  ⟨"CFO", 268, 268/1000,
    [⟨1, "fleet diesel", "diesel_litres", [("litres", 100)], 268, dieselTrace⟩]⟩

/-- Gas-breakdown emission factor of the specification's worked example:
no direct value, CO2 0.45 and CH4 0.0001 per unit under AR5. -/
def gridEF : EmissionFactor :=
  ⟨"electricity_grid", none, some ⟨[("CO2", 9/20), ("CH4", 1/10000)]⟩, "AR5",
    some ⟨[], none, some "kwh"⟩, none⟩

/-- Emission factor with neither `value` nor `gas_breakdown`. -/
def bareEF : EmissionFactor := ⟨"ef_bare", none, none, "AR5", none, none⟩

/-- Activity matched to `bareEF`, with only a fallback `amount` input. -/
def bareAct : Activity := ⟨7, "boiler", "ef_bare", [("amount", 5)]⟩

/-- Store holding the bare emission factor and its activity. -/
def bareDb : Db := ⟨[bareEF], [bareAct]⟩

/-- The `activity_id_fields` specification of `fuelEF`: both a formula and a
quantity field are present, and two fields are required. -/
def fuelSpec : ActivityIdFieldsSpec :=
  ⟨["volume", "density"], some ⟨"volume*density", some "mass_kg", some "kg"⟩, some "volume"⟩

/-- Formula-driven emission factor (mass from volume times density). -/
def fuelEF : EmissionFactor := ⟨"fuel_mass", some 3, none, "AR5", some fuelSpec, none⟩

/-- Inputs for the formula example: volume 10, density 0.85. -/
def fuelInputs : Inputs := [("volume", 10), ("density", 17/20)]

/-- Emission factor whose gas symbol carries surrounding whitespace. -/
def stripEF : EmissionFactor := ⟨"ef_strip", none, some ⟨[(" co2 ", 2)]⟩, "AR5", none, none⟩

/-- Emission factor with no gas breakdown and an unrecognized GWP version. -/
def unknownGwpEF : EmissionFactor := ⟨"ef_unknown_gwp", none, none, "AR7_DRAFT", none, none⟩

/-- Emission factor with a present but empty gas breakdown under AR4. -/
def emptyGbEF : EmissionFactor := ⟨"ef_empty", none, some ⟨[]⟩, "AR4", none, none⟩

/-- Activity referencing an emission factor that is not stored. -/
def orphanAct : Activity := ⟨1, "orphan", "no_such_ef", [("amount", 1)]⟩

/-- Store holding no emission factors and only the orphan activity. -/
def orphanDb : Db := ⟨[], [orphanAct]⟩

/-! ### Claim C1 -/

/-- C1 counterexample: an emission factor with `value` and `gas_breakdown`
both absent does not make `compute_activity_kgco2e` fail — at this concrete
input it returns `ok` with 0 kgCO2e via the gas-breakdown path. -/
theorem absent_value_and_breakdown_returns_ok :
    bareEF.value = none ∧ bareEF.gas_breakdown = none ∧
      compute_activity_kgco2e bareDb bareAct =
        .ok (0, ⟨"gas_breakdown", 5, none, some 0,
          ⟨"fallback_amount", none, none, some "amount", 5, none⟩, "ef_bare", none⟩) :=
  ⟨rfl, rfl, by decide⟩

/-- C1 amended: for every emission factor whose `value` and `gas_breakdown`
are both absent, whenever the quantity derivation succeeds and the GWP
version is recognized, `compute_activity_kgco2e` does not fail: it silently
returns 0 kgCO2e with method "gas_breakdown" and per-unit CO2e 0. -/
theorem absent_value_and_breakdown_silent_zero (db : Db) (a : Activity)
    (ef : EmissionFactor) (q : ℚ) (qt : QuantityTrace) (table : List (String × ℚ))
    (hef : findEF db a.ef_key = some ef) (hv : ef.value = none)
    (hgb : ef.gas_breakdown = none)
    (hq : compute_activity_quantity ef a.inputs = .ok (q, qt))
    (hgwp : resolve_gwp ef.gwp_version = .ok table) :
    compute_activity_kgco2e db a =
      .ok (0, ⟨"gas_breakdown", q, none, some 0, qt, ef.key, ef.meta⟩) := by
  have hper : _per_unit_co2e_from_gas_breakdown ef = .ok 0 := by
    unfold _per_unit_co2e_from_gas_breakdown
    rw [hgwp]
    dsimp only
    simp [gasesOf, hgb]
  unfold compute_activity_kgco2e
  rw [hef]
  dsimp only
  rw [hq]
  dsimp only
  rw [hv]
  dsimp only
  rw [hper]
  dsimp only
  rw [mul_zero]

/-- C1 witness: the amended claim instantiated at the bare fixture. -/
theorem absent_value_and_breakdown_silent_zero_witness :
    findEF bareDb bareAct.ef_key = some bareEF ∧ bareEF.value = none ∧
      bareEF.gas_breakdown = none ∧
      compute_activity_quantity bareEF bareAct.inputs =
        .ok (5, ⟨"fallback_amount", none, none, some "amount", 5, none⟩) ∧
      resolve_gwp bareEF.gwp_version = .ok gwpAR5 ∧
      compute_activity_kgco2e bareDb bareAct =
        .ok (0, ⟨"gas_breakdown", 5, none, some 0,
          ⟨"fallback_amount", none, none, some "amount", 5, none⟩, "ef_bare", none⟩) :=
  ⟨by decide, rfl, rfl, by decide, by decide,
    absent_value_and_breakdown_silent_zero bareDb bareAct bareEF 5
      ⟨"fallback_amount", none, none, some "amount", 5, none⟩ gwpAR5
      (by decide) rfl rfl (by decide) (by decide)⟩

/-! ### Claim C2 -/

/-- C2: for every activity whose matched emission factor has a non-null
`value`, `compute_activity_kgco2e` returns exactly the resolved quantity
times that value — a pure multiplication with no rounding — and the trace
method is "direct_value". -/
theorem direct_value_exact_product (db : Db) (a : Activity) (ef : EmissionFactor)
    (v q : ℚ) (qt : QuantityTrace)
    (hef : findEF db a.ef_key = some ef) (hv : ef.value = some v)
    (hq : compute_activity_quantity ef a.inputs = .ok (q, qt)) :
    compute_activity_kgco2e db a =
      .ok (q * v, ⟨"direct_value", q, some v, none, qt, ef.key, ef.meta⟩) := by
  unfold compute_activity_kgco2e
  rw [hef]
  dsimp only
  rw [hq]
  dsimp only
  rw [hv]

/-- C2 witness: the diesel example — quantity 100 at value 2.68 gives
exactly 268 kgCO2e with a direct-value trace. -/
theorem direct_value_exact_product_witness :
    findEF dieselDb dieselAct.ef_key = some dieselEF ∧
      dieselEF.value = some (67/25) ∧
      compute_activity_quantity dieselEF dieselAct.inputs = .ok (100, dieselQTrace) ∧
      compute_activity_kgco2e dieselDb dieselAct =
        .ok (100 * (67/25), ⟨"direct_value", 100, some (67/25), none, dieselQTrace,
          "diesel_litres", none⟩) :=
  ⟨by decide, rfl, by decide,
    direct_value_exact_product dieselDb dieselAct dieselEF (67/25) 100 dieselQTrace
      (by decide) rfl (by decide)⟩

/-! ### Claim C3 -/

/-- C3: whenever a specification carries both a `formula` and a
`quantity_field` and all required inputs are present, the quantity resolver
chooses the formula strategy: the quantity is the expression evaluator's
result and the trace records method "formula". -/
theorem formula_strategy_priority (ef : EmissionFactor) (inputs : Inputs)
    (spec : ActivityIdFieldsSpec) (f : Formula) (qf : String) (q : ℚ)
    (hspec : ef.activity_id_fields = some spec) (hf : spec.formula = some f)
    (hqf : spec.quantity_field = some qf)
    (hreq : ∀ r ∈ spec.required, hasKey inputs r = true)
    (heval : eval_expression f.expression inputs = .ok q) :
    compute_activity_quantity ef inputs =
      .ok (q, ⟨"formula", some f.expression,
        some (pyOrStr f.output (pyOrStr (some qf) "quantity")), none, q, f.unit⟩) := by
  have hsp : specOf ef = spec := by simp [specOf, hspec]
  have hfind : spec.required.find? (fun r => !(hasKey inputs r)) = none := by
    apply List.find?_eq_none.mpr
    intro x hx
    simp [hreq x hx]
  unfold compute_activity_quantity
  dsimp only
  rw [hsp, hfind]
  dsimp only
  rw [hf]
  dsimp only
  rw [heval]
  dsimp only
  rw [hqf]

/-- C3 witness: the formula example — both `formula` and `quantity_field`
present, expression `volume*density` at volume 10 and density 0.85 gives
quantity 8.5 with a formula trace. -/
theorem formula_strategy_priority_witness :
    fuelEF.activity_id_fields = some fuelSpec ∧
      fuelSpec.formula = some ⟨"volume*density", some "mass_kg", some "kg"⟩ ∧
      fuelSpec.quantity_field = some "volume" ∧
      (∀ r ∈ fuelSpec.required, hasKey fuelInputs r = true) ∧
      eval_expression "volume*density" fuelInputs = .ok (17/2) ∧
      compute_activity_quantity fuelEF fuelInputs =
        .ok (17/2, ⟨"formula", some "volume*density", some "mass_kg", none, 17/2, some "kg"⟩) := by
  refine ⟨rfl, rfl, rfl, by decide, by decide, ?_⟩
  have h := formula_strategy_priority fuelEF fuelInputs fuelSpec
    ⟨"volume*density", some "mass_kg", some "kg"⟩ "volume" (17/2)
    rfl rfl rfl (by decide) (by decide)
  simpa [pyOrStr] using h

/-! ### Claim C4 -/

/-- C4: whenever some name of `spec.required` is absent from the inputs,
the quantity resolver fails with a missing-input error naming a missing
required field and the emission-factor key — before any derivation strategy
is attempted, whatever later strategies could have applied. -/
theorem missing_required_input_fails (ef : EmissionFactor) (inputs : Inputs)
    (h : ∃ r ∈ (specOf ef).required, hasKey inputs r = false) :
    ∃ r ∈ (specOf ef).required, hasKey inputs r = false ∧
      compute_activity_quantity ef inputs = .error (.missingInput r ef.key) := by
  have hsome : ((specOf ef).required.find? (fun r => !(hasKey inputs r))).isSome := by
    apply List.find?_isSome.mpr
    obtain ⟨r, hr, hrk⟩ := h
    exact ⟨r, hr, by simp [hrk]⟩
  obtain ⟨r0, hfind⟩ := Option.isSome_iff_exists.mp hsome
  have hmem := List.mem_of_find?_eq_some hfind
  have hprop := List.find?_some hfind
  refine ⟨r0, hmem, by simpa using hprop, ?_⟩
  unfold compute_activity_quantity
  dsimp only
  rw [hfind]

/-- C4 witness: with required fields `volume` and `density` but only
`volume` supplied, the resolver fails naming `density` — although the
formula, quantity-field and fallback strategies could all have proceeded. -/
theorem missing_required_input_fails_witness :
    (∃ r ∈ (specOf fuelEF).required, hasKey [("volume", (10:ℚ))] r = false) ∧
      ∃ r ∈ (specOf fuelEF).required, hasKey [("volume", (10:ℚ))] r = false ∧
        compute_activity_quantity fuelEF [("volume", 10)] =
          .error (.missingInput r fuelEF.key) :=
  ⟨by decide, missing_required_input_fails fuelEF [("volume", 10)] (by decide)⟩

/-! ### Claim C5 -/

/-- C5 counterexample: the source strips whitespace before upper-casing, so
for the gas symbol `" co2 "` the code contributes `2 * 1 = 2`, while the
claim's sum over case-insensitive matches alone contributes 0. -/
theorem per_unit_strip_counterexample :
    resolve_gwp stripEF.gwp_version = .ok gwpAR5 ∧
      _per_unit_co2e_from_gas_breakdown stripEF = .ok 2 ∧
      perUnitSum pyUpper [(" co2 ", 2)] gwpAR5 = 0 :=
  ⟨by decide, by decide, by decide⟩

/-- C5 amended: for every gas breakdown and recognized GWP version, the
per-unit CO2e equals the sum over the gases of quantity times GWP factor for
the gases whose symbol, after stripping surrounding whitespace and
upper-casing, is a key of the table; gases absent from the table raise no
error and contribute 0. -/
theorem per_unit_co2e_strip_upper_sum (ef : EmissionFactor) (table : List (String × ℚ))
    (hgwp : resolve_gwp ef.gwp_version = .ok table) :
    _per_unit_co2e_from_gas_breakdown ef =
      .ok (perUnitSum (fun s => pyUpper (pyStrip s)) (gasesOf ef) table) := by
  unfold _per_unit_co2e_from_gas_breakdown
  rw [hgwp]
  dsimp only
  rw [gas_fold_eq_sum, zero_add]

/-- C5 witness: the electricity-grid example under AR5 — the summed
per-unit CO2e is 0.4528, with CO2 and CH4 both matched in the table. -/
theorem per_unit_co2e_strip_upper_sum_witness :
    resolve_gwp gridEF.gwp_version = .ok gwpAR5 ∧
      perUnitSum (fun s => pyUpper (pyStrip s)) (gasesOf gridEF) gwpAR5 = 283/625 ∧
      _per_unit_co2e_from_gas_breakdown gridEF =
        .ok (perUnitSum (fun s => pyUpper (pyStrip s)) (gasesOf gridEF) gwpAR5) :=
  ⟨by decide, by decide, per_unit_co2e_strip_upper_sum gridEF gwpAR5 (by decide)⟩

/-! ### Claim C6 -/

/-- C6 counterexample: the GWP table is resolved even when the breakdown is
absent, so an emission factor with no `gas_breakdown` but an unrecognized
`gwp_version` makes the converter fail instead of returning 0. -/
theorem empty_breakdown_unknown_version_fails :
    unknownGwpEF.gas_breakdown = none ∧
      _per_unit_co2e_from_gas_breakdown unknownGwpEF =
        .error (.unknownGwpVersion "AR7_DRAFT") :=
  ⟨rfl, by decide⟩

/-- C6 amended: for every emission factor whose gas breakdown is empty or
absent and whose `gwp_version` is recognized, the converter returns 0. -/
theorem empty_breakdown_recognized_version_zero (ef : EmissionFactor)
    (table : List (String × ℚ))
    (hgwp : resolve_gwp ef.gwp_version = .ok table) (hempty : gasesOf ef = []) :
    _per_unit_co2e_from_gas_breakdown ef = .ok 0 := by
  unfold _per_unit_co2e_from_gas_breakdown
  rw [hgwp]
  dsimp only
  rw [hempty]
  rfl

/-- C6 witness: the amended claim at a present-but-empty breakdown under
the recognized version AR4. -/
theorem empty_breakdown_recognized_version_zero_witness :
    resolve_gwp emptyGbEF.gwp_version = .ok gwpAR4 ∧ gasesOf emptyGbEF = [] ∧
      _per_unit_co2e_from_gas_breakdown emptyGbEF = .ok 0 :=
  ⟨by decide, rfl, empty_breakdown_recognized_version_zero emptyGbEF gwpAR4 (by decide) rfl⟩

/-! ### Claim C7 -/

/-- C7: on every non-empty activity-id list for which `compute_run`
succeeds, `details.rows` pairs off with the input ids one to one and in the
input order, each row carrying that activity's id, name, emission-factor
key, raw inputs, kgCO2e and trace. -/
theorem compute_run_rows_ordered (db : Db) (ids : List Int) (rt : String)
    (res : RunResult) (_hne : ids ≠ []) (h : compute_run db ids rt = .ok res) :
    List.Forall₂ (RowMatches db) ids res.rows := by
  obtain ⟨t, rows, hrl, hres⟩ := compute_run_ok h
  rw [hres]
  exact runLoop_rows db ids t rows hrl

/-- C7 witness: the one-activity diesel run, with its fully evaluated
result record. -/
theorem compute_run_rows_ordered_witness :
    [(1:Int)] ≠ [] ∧ compute_run dieselDb [1] "CFO" = .ok dieselRes ∧
      List.Forall₂ (RowMatches dieselDb) [1] dieselRes.rows :=
  ⟨by decide, by decide,
    compute_run_rows_ordered dieselDb [1] "CFO" dieselRes (by decide) (by decide)⟩

/-! ### Claim C8 -/

/-- C8: on every successful run, `total_kgco2e` is the exact left-to-right
sum of the per-activity kgCO2e values and `total_tco2e` equals
`total_kgco2e / 1000` exactly. -/
theorem compute_run_totals_exact (db : Db) (ids : List Int) (rt : String)
    (res : RunResult) (h : compute_run db ids rt = .ok res) :
    res.total_tco2e = res.total_kgco2e / 1000 ∧
      res.total_kgco2e = (res.rows.map Row.kgco2e).foldl (· + ·) 0 := by
  obtain ⟨t, rows, hrl, hres⟩ := compute_run_ok h
  subst hres
  exact ⟨rfl, runLoop_total db ids t rows hrl⟩

/-- C8 witness: the diesel run — 268 kgCO2e total and 0.268 tCO2e. -/
theorem compute_run_totals_exact_witness :
    compute_run dieselDb [1] "CFO" = .ok dieselRes ∧
      dieselRes.total_tco2e = dieselRes.total_kgco2e / 1000 ∧
      dieselRes.total_kgco2e = (dieselRes.rows.map Row.kgco2e).foldl (· + ·) 0 :=
  ⟨by decide, compute_run_totals_exact dieselDb [1] "CFO" dieselRes (by decide)⟩

/-! ### Claim C9 -/

/-- The run loop fails with the activity-not-found error of the first
missing id, provided every id before it resolves and computes. -/
lemma runLoop_first_missing (db : Db) (aid : Int) (post : List Int)
    (hmiss : findActivity db aid = none) :
    ∀ pre : List Int,
      (∀ x ∈ pre, ∃ a kgtr, findActivity db x = some a ∧
        compute_activity_kgco2e db a = .ok kgtr) →
      ∀ (total : ℚ) (rows : List Row),
        runLoop db (pre ++ aid :: post) total rows =
          .error (.activityNotFound aid) := by
  intro pre
  induction pre with
  | nil =>
    intro _ total rows
    simp only [List.nil_append, runLoop]
    rw [hmiss]
  | cons x xs ih =>
    intro hpre total rows
    obtain ⟨a, kgtr, hfa, hc⟩ := hpre x (List.mem_cons_self x xs)
    obtain ⟨kg, tr⟩ := kgtr
    simp only [List.cons_append, runLoop]
    rw [hfa]
    dsimp only
    rw [hc]
    dsimp only
    exact ih (fun y hy => hpre y (List.mem_cons_of_mem x hy)) _ _

/-- C9 counterexample: the id list `[1, 2]` contains the id 2 with no
matching activity, yet `compute_run` fails with the emission-factor-not-
found error of activity 1, not with an activity-not-found error for 2. -/
theorem compute_run_earlier_error_preempts :
    findActivity orphanDb 2 = none ∧
      compute_run orphanDb [1, 2] "CFO" = .error (.efNotFound "no_such_ef") ∧
      compute_run orphanDb [1, 2] "CFO" ≠ .error (.activityNotFound 2) :=
  ⟨by decide, by decide, by decide⟩

/-- C9 amended: whenever every activity before the first missing id exists
and computes successfully, `compute_run` fails with the activity-not-found
error of that first missing id — whatever follows it is never reached — and
no run result is returned. -/
theorem compute_run_first_missing_id_fails (db : Db) (rt : String)
    (pre post : List Int) (aid : Int)
    (hpre : ∀ x ∈ pre, ∃ a kgtr, findActivity db x = some a ∧
      compute_activity_kgco2e db a = .ok kgtr)
    (hmiss : findActivity db aid = none) :
    compute_run db (pre ++ aid :: post) rt = .error (.activityNotFound aid) := by
  unfold compute_run
  rw [runLoop_first_missing db aid post hmiss pre hpre 0 []]

/-- C9 witness: the diesel store with ids `[1, 2, 3]` — activity 1
computes, id 2 is missing, id 3 is never consulted. -/
theorem compute_run_first_missing_id_fails_witness :
    (∀ x ∈ [(1:Int)], ∃ a kgtr, findActivity dieselDb x = some a ∧
      compute_activity_kgco2e dieselDb a = .ok kgtr) ∧
      findActivity dieselDb 2 = none ∧
      compute_run dieselDb ([1] ++ 2 :: [3]) "CFO" =
        .error (.activityNotFound 2) := by
  have hpre : ∀ x ∈ [(1:Int)], ∃ a kgtr, findActivity dieselDb x = some a ∧
      compute_activity_kgco2e dieselDb a = .ok kgtr := by
    intro x hx
    have hx1 : x = 1 := by simpa using hx
    subst hx1
    exact ⟨dieselAct, (268, dieselTrace), by decide, by decide⟩
  exact ⟨hpre, by decide,
    compute_run_first_missing_id_fails dieselDb "CFO" [1] [3] 2 hpre (by decide)⟩

/-! ### Claim C10 -/

/-- C10: a run over an empty activity-id list does not fail — it returns a
result with totals 0, the given run type, and no rows. -/
theorem compute_run_empty_ids (db : Db) (rt : String) :
    compute_run db [] rt = .ok ⟨rt, 0, 0, []⟩ := by
  simp [compute_run, runLoop, zero_div]

end CarbonPlatform
